import Mathlib

/-!
Verification of the exa-sdk Rust client library against its specification.

The repository is a typed HTTP client with three endpoint operations
(`search`, `find_similar`, `get_contents`) sharing a request-dispatch
pipeline. This file shallowly embeds the data model and the dispatch logic:

* JSON documents are an inductive `Json` type; `serde` derives are embedded
  as explicit `toJsonFields` / `fromJson` functions that mirror, field by
  field, the `#[serde(rename = ...)]` and
  `#[serde(skip_serializing_if = "Option::is_none")]` attributes of the
  source (`src/search.rs`, `src/find_similar.rs`, `src/get_contents.rs`).
* Rust `u32` is embedded as `Fin 4294967296`; `f64` values only pass
  through the client untouched, so they are embedded as exact rationals.
* The network is the environment: each operation is a function of the
  client, the request value, and the `MockResponse` the transport would
  deliver, returning the list of side effects it performs (HTTP posts and
  debug logging) together with an `Outcome` that distinguishes a returned
  value, a returned error, and a Rust panic.
-/

/-- A JSON document. `serde_json` numbers (integers and doubles) are embedded
as exact rationals, which is faithful for this client: numeric fields are
only transported, never computed with. -/
inductive Json where
  | null : Json
  | bool (b : Bool) : Json
  | num (q : Rat) : Json
  | str (s : String) : Json
  | arr (elems : List Json) : Json
  | obj (fields : List (String × Json)) : Json

/-- True exactly on the JSON `null` document. -/
def Json.isNull : Json → Bool
  | .null => true
  | _ => false

/-- Rust `u32`, embedded with its exact range. -/
abbrev U32 := Fin 4294967296

/-- First value bound to key `k` in a JSON object's field list (serde reads
the first occurrence of a duplicated key). -/
def lookupKey (k : String) : List (String × Json) → Option Json
  | [] => none
  | (k', v) :: rest => if k' = k then some v else lookupKey k rest

/-- Embedding of `#[serde(skip_serializing_if = "Option::is_none")]`: an
unset optional field contributes no entry at all, a set one contributes
exactly its wire-name entry. -/
def optField (k : String) (enc : α → Json) : Option α → List (String × Json)
  | none => []
  | some a => [(k, enc a)]

/-- Embedding of serialization of an `Option` field that has no
`skip_serializing_if` attribute: serde emits `null` for `None`. -/
def encOptNull (enc : α → Json) : Option α → Json
  | none => Json.null
  | some a => enc a

/-- Error-propagating sequencing, written out as a match so that proofs
reduce structurally. -/
def exBind (x : Except String α) (f : α → Except String β) : Except String β :=
  match x with
  | .error e => .error e
  | .ok a => f a

/-- Deserialize a required struct field: serde errors when the key is
missing, otherwise runs the field's deserializer. -/
def getReq (fs : List (String × Json)) (k : String) (dec : Json → Except String α) :
    Except String α :=
  match lookupKey k fs with
  | some v => dec v
  | none => .error ("missing field " ++ k)

/-- Deserialize an `Option` struct field from the looked-up value: serde
yields `None` for a missing key and for an explicit `null`, and otherwise
deserializes the inner value. -/
def getOptVal (dec : Json → Except String α) : Option Json → Except String (Option α)
  | none => .ok none
  | some v =>
    if v.isNull then .ok none
    else
      match dec v with
      | .ok a => .ok (some a)
      | .error e => .error e

/-- Deserialize every element of a JSON array in order, failing on the first
element that fails (serde's sequence semantics). -/
def decodeAll (dec : Json → Except String α) : List Json → Except String (List α)
  | [] => .ok []
  | j :: rest =>
    match dec j with
    | .error e => .error e
    | .ok a =>
      match decodeAll dec rest with
      | .error e => .error e
      | .ok as => .ok (a :: as)

/-- Deserializer for a Rust `String` field. -/
def decStr : Json → Except String String
  | .str s => .ok s
  | _ => .error "invalid type: expected a string"

/-- Deserializer for a Rust `bool` field. -/
def decBool : Json → Except String Bool
  | .bool b => .ok b
  | _ => .error "invalid type: expected a boolean"

/-- Deserializer for a Rust `f64` field (any JSON number). -/
def decNum : Json → Except String Rat
  | .num q => .ok q
  | _ => .error "invalid type: expected a number"

/-- Deserializer for a Rust `u32` field: the number must be integral and in
range, exactly as `serde_json` checks. -/
def decU32 (j : Json) : Except String U32 :=
  match j with
  | .num q =>
    if h : q.den = 1 ∧ 0 ≤ q.num ∧ q.num < 4294967296 then
      .ok ⟨q.num.toNat, by omega⟩
    else .error "invalid value: expected u32"
  | _ => .error "invalid type: expected a number"

/-- Serializer for a Rust `u32` field. -/
def encU32 (n : U32) : Json := Json.num (n.val : Rat)

/-- Deserializer for a JSON array field. -/
def decList (dec : Json → Except String α) : Json → Except String (List α)
  | .arr xs => decodeAll dec xs
  | _ => .error "invalid type: expected a sequence"

/-- Serializer for a `Vec<String>` field. -/
def encStrList (xs : List String) : Json := Json.arr (xs.map Json.str)

/-- Serializer for a `Vec<f64>` field. -/
def encRatList (xs : List Rat) : Json := Json.arr (xs.map Json.num)

/-- Modelled from the spec: the repository declares `mod error;` but
`error.rs` is not under `src/`, so the error-payload schema is reconstructed
from §3 and §7 of the spec (`{ code: string, message: string }`, parsed from
a non-success HTTP body) and from its uses in `lib.rs`, `search.rs`,
`find_similar.rs` and the in-repo tests. -/
structure HttpErrorPayload where
  code : String
  message : String
deriving DecidableEq, Repr

/-- Modelled from the spec: `HttpError { status, code, message }` — the
remote service returned a non-success status with a parseable error payload
(spec §7); field layout taken from its construction sites in `lib.rs`,
`search.rs` and `find_similar.rs` (`HttpError { status, payload }`). -/
structure HttpError where
  status : Nat
  payload : HttpErrorPayload
deriving DecidableEq, Repr

/-- Modelled from the spec: the `ExaError` enum lives in the missing
`error.rs`. The construction sites in `src/` use an `HttpError` variant and
a `From<reqwest::Error>` conversion (the `?` operator on `send()` /
`.json()` / `.text()`), which covers the spec's `TransportError` and
`DecodeError` cases; the converted reqwest error is embedded as its
message. -/
inductive ExaError where
  | httpError (e : HttpError)
  | reqwest (msg : String)
deriving DecidableEq, Repr

/-- Deserialization of the error payload, per its serde derive (two required
string fields, unknown keys ignored). -/
def HttpErrorPayload.fromJson (j : Json) : Except String HttpErrorPayload :=
  match j with
  | .obj fs =>
    exBind (getReq fs "code" decStr) fun code =>
    exBind (getReq fs "message" decStr) fun message =>
    .ok { code := code, message := message }
  | _ => .error "invalid type: expected an object"

/-- The `SearchKind` enum of `src/search.rs` (`#[serde(rename_all = "lowercase")]`). -/
inductive SearchKind where
  | Neural
  | Keyword
  | Auto
deriving DecidableEq

/-- Serialization of `SearchKind` per `rename_all = "lowercase"`. -/
def SearchKind.toJson : SearchKind → Json
  | .Neural => Json.str "neural"
  | .Keyword => Json.str "keyword"
  | .Auto => Json.str "auto"

/-- Deserialization of `SearchKind` per `rename_all = "lowercase"`. -/
def SearchKind.fromJson (j : Json) : Except String SearchKind :=
  match j with
  | .str "neural" => .ok .Neural
  | .str "keyword" => .ok .Keyword
  | .str "auto" => .ok .Auto
  | _ => .error "unknown variant"

/-- `SearchContentText` of `src/search.rs` (derives `Default`; wire names
`maxCharacters` / `includeHtmlTags`; no `skip_serializing_if`). -/
structure SearchContentText where
  max_characters : Option U32 := none
  include_html_tags : Option Bool := none
deriving DecidableEq

/-- Serialization of `SearchContentText`: both fields renamed to camelCase,
neither skipped when unset (serde emits `null`). -/
def SearchContentText.toJsonFields (c : SearchContentText) : List (String × Json) :=
  [("maxCharacters", encOptNull encU32 c.max_characters),
   ("includeHtmlTags", encOptNull Json.bool c.include_html_tags)]

/-- Serialization of `SearchContentText` as a JSON object. -/
def SearchContentText.toJson (c : SearchContentText) : Json :=
  Json.obj c.toJsonFields

/-- Deserialization of `SearchContentText` from its camelCase wire names. -/
def SearchContentText.fromJson (j : Json) : Except String SearchContentText :=
  match j with
  | .obj fs =>
    exBind (getOptVal decU32 (lookupKey "maxCharacters" fs)) fun max_characters =>
    exBind (getOptVal decBool (lookupKey "includeHtmlTags" fs)) fun include_html_tags =>
    .ok { max_characters := max_characters, include_html_tags := include_html_tags }
  | _ => .error "invalid type: expected an object"

/-- `SearchHighlights` of `src/search.rs` (wire names `numSentences` /
`highlightsPerUrl` / `query`; no `skip_serializing_if`). -/
structure SearchHighlights where
  num_sentences : Option U32
  highlights_per_url : Option U32
  query : Option String
deriving DecidableEq

/-- Serialization of `SearchHighlights`. -/
def SearchHighlights.toJsonFields (h : SearchHighlights) : List (String × Json) :=
  [("numSentences", encOptNull encU32 h.num_sentences),
   ("highlightsPerUrl", encOptNull encU32 h.highlights_per_url),
   ("query", encOptNull Json.str h.query)]

/-- Serialization of `SearchHighlights` as a JSON object. -/
def SearchHighlights.toJson (h : SearchHighlights) : Json :=
  Json.obj h.toJsonFields

/-- Deserialization of `SearchHighlights`. -/
def SearchHighlights.fromJson (j : Json) : Except String SearchHighlights :=
  match j with
  | .obj fs =>
    exBind (getOptVal decU32 (lookupKey "numSentences" fs)) fun num_sentences =>
    exBind (getOptVal decU32 (lookupKey "highlightsPerUrl" fs)) fun highlights_per_url =>
    exBind (getOptVal decStr (lookupKey "query" fs)) fun query =>
    .ok { num_sentences := num_sentences, highlights_per_url := highlights_per_url,
          query := query }
  | _ => .error "invalid type: expected an object"

/-- `SearchSummary` of `src/search.rs`: a required `summary` string and an
optional `query` (renamed to itself; no `skip_serializing_if`). -/
structure SearchSummary where
  summary : String
  query : Option String
deriving DecidableEq

/-- Serialization of `SearchSummary`. -/
def SearchSummary.toJsonFields (s : SearchSummary) : List (String × Json) :=
  [("summary", Json.str s.summary),
   ("query", encOptNull Json.str s.query)]

/-- Serialization of `SearchSummary` as a JSON object. -/
def SearchSummary.toJson (s : SearchSummary) : Json :=
  Json.obj s.toJsonFields

/-- Deserialization of `SearchSummary`. -/
def SearchSummary.fromJson (j : Json) : Except String SearchSummary :=
  match j with
  | .obj fs =>
    exBind (getReq fs "summary" decStr) fun summary =>
    exBind (getOptVal decStr (lookupKey "query" fs)) fun query =>
    .ok { summary := summary, query := query }
  | _ => .error "invalid type: expected an object"

/-- `SearchContent` of `src/search.rs` (derives `Default`; three optional
nested sections, none renamed, none skipped when unset). -/
structure SearchContent where
  text : Option SearchContentText := none
  highlights : Option SearchHighlights := none
  summary : Option SearchSummary := none
deriving DecidableEq

/-- Serialization of `SearchContent`: each unset section serializes as
`null` (no `skip_serializing_if` in the source). -/
def SearchContent.toJsonFields (c : SearchContent) : List (String × Json) :=
  [("text", encOptNull SearchContentText.toJson c.text),
   ("highlights", encOptNull SearchHighlights.toJson c.highlights),
   ("summary", encOptNull SearchSummary.toJson c.summary)]

/-- Serialization of `SearchContent` as a JSON object. -/
def SearchContent.toJson (c : SearchContent) : Json :=
  Json.obj c.toJsonFields

/-- Deserialization of `SearchContent`. -/
def SearchContent.fromJson (j : Json) : Except String SearchContent :=
  match j with
  | .obj fs =>
    exBind (getOptVal SearchContentText.fromJson (lookupKey "text" fs)) fun text =>
    exBind (getOptVal SearchHighlights.fromJson (lookupKey "highlights" fs)) fun highlights =>
    exBind (getOptVal SearchSummary.fromJson (lookupKey "summary" fs)) fun summary =>
    .ok { text := text, highlights := highlights, summary := summary }
  | _ => .error "invalid type: expected an object"

/-- `SearchRequest` of `src/search.rs` (derives `Default`): a required
`query` plus optional fields. Every optional field except `contents` carries
`skip_serializing_if = "Option::is_none"` and a camelCase rename; `contents`
carries neither attribute. -/
structure SearchRequest where
  query : String := ""
  use_autoprompt : Option Bool := none
  kind : Option SearchKind := none
  include_text : Option (List String) := none
  num_results : Option U32 := none
  include_domains : Option (List String) := none
  exclude_domains : Option (List String) := none
  start_crawl_date : Option String := none
  end_crawl_date : Option String := none
  start_published_date : Option String := none
  end_published_date : Option String := none
  exclude_text : Option (List String) := none
  contents : Option SearchContent := none
deriving DecidableEq

/-- Serialization of `SearchRequest`, mirroring the serde attributes field
by field: camelCase renames (`useAutoprompt`, `type`, `includeText`,
`numResults`, ...), unset optionals omitted — except `contents`, which has
no `skip_serializing_if` and therefore serializes as `null` when unset. -/
def SearchRequest.toJsonFields (r : SearchRequest) : List (String × Json) :=
  [("query", Json.str r.query)]
  ++ optField "useAutoprompt" Json.bool r.use_autoprompt
  ++ optField "type" SearchKind.toJson r.kind
  ++ optField "includeText" encStrList r.include_text
  ++ optField "numResults" encU32 r.num_results
  ++ optField "includeDomains" encStrList r.include_domains
  ++ optField "excludeDomains" encStrList r.exclude_domains
  ++ optField "startCrawlDate" Json.str r.start_crawl_date
  ++ optField "endCrawlDate" Json.str r.end_crawl_date
  ++ optField "startPublishedDate" Json.str r.start_published_date
  ++ optField "endPublishedDate" Json.str r.end_published_date
  ++ optField "excludeText" encStrList r.exclude_text
  ++ [("contents", encOptNull SearchContent.toJson r.contents)]

/-- Serialization of `SearchRequest` as a JSON object. -/
def SearchRequest.toJson (r : SearchRequest) : Json :=
  Json.obj r.toJsonFields

/-- Deserialization of `SearchRequest` from the same wire names the
serialize direction uses (serde renames apply to both derives). -/
def SearchRequest.fromJson (j : Json) : Except String SearchRequest :=
  match j with
  | .obj fs =>
    exBind (getReq fs "query" decStr) fun query =>
    exBind (getOptVal decBool (lookupKey "useAutoprompt" fs)) fun use_autoprompt =>
    exBind (getOptVal SearchKind.fromJson (lookupKey "type" fs)) fun kind =>
    exBind (getOptVal (decList decStr) (lookupKey "includeText" fs)) fun include_text =>
    exBind (getOptVal decU32 (lookupKey "numResults" fs)) fun num_results =>
    exBind (getOptVal (decList decStr) (lookupKey "includeDomains" fs)) fun include_domains =>
    exBind (getOptVal (decList decStr) (lookupKey "excludeDomains" fs)) fun exclude_domains =>
    exBind (getOptVal decStr (lookupKey "startCrawlDate" fs)) fun start_crawl_date =>
    exBind (getOptVal decStr (lookupKey "endCrawlDate" fs)) fun end_crawl_date =>
    exBind (getOptVal decStr (lookupKey "startPublishedDate" fs)) fun start_published_date =>
    exBind (getOptVal decStr (lookupKey "endPublishedDate" fs)) fun end_published_date =>
    exBind (getOptVal (decList decStr) (lookupKey "excludeText" fs)) fun exclude_text =>
    exBind (getOptVal SearchContent.fromJson (lookupKey "contents" fs)) fun contents =>
    .ok { query := query, use_autoprompt := use_autoprompt, kind := kind,
          include_text := include_text, num_results := num_results,
          include_domains := include_domains, exclude_domains := exclude_domains,
          start_crawl_date := start_crawl_date, end_crawl_date := end_crawl_date,
          start_published_date := start_published_date,
          end_published_date := end_published_date, exclude_text := exclude_text,
          contents := contents }
  | _ => .error "invalid type: expected an object"

/-- `SearchResult` of `src/search.rs`: no `skip_serializing_if` anywhere;
`publishedDate` and `highlightScores` are renamed, the rest keep their
names. The `f64` score is embedded as an exact rational. -/
structure SearchResult where
  title : String
  url : String
  published_date : Option String
  author : Option String
  score : Rat
  id : String
  text : Option String
  highlights : Option (List String)
  highlight_scores : Option (List Rat)
deriving DecidableEq

/-- Serialization of `SearchResult`. -/
def SearchResult.toJsonFields (r : SearchResult) : List (String × Json) :=
  [("title", Json.str r.title),
   ("url", Json.str r.url),
   ("publishedDate", encOptNull Json.str r.published_date),
   ("author", encOptNull Json.str r.author),
   ("score", Json.num r.score),
   ("id", Json.str r.id),
   ("text", encOptNull Json.str r.text),
   ("highlights", encOptNull encStrList r.highlights),
   ("highlightScores", encOptNull encRatList r.highlight_scores)]

/-- Serialization of `SearchResult` as a JSON object. -/
def SearchResult.toJson (r : SearchResult) : Json :=
  Json.obj r.toJsonFields

/-- Deserialization of `SearchResult`. -/
def SearchResult.fromJson (j : Json) : Except String SearchResult :=
  match j with
  | .obj fs =>
    exBind (getReq fs "title" decStr) fun title =>
    exBind (getReq fs "url" decStr) fun url =>
    exBind (getOptVal decStr (lookupKey "publishedDate" fs)) fun published_date =>
    exBind (getOptVal decStr (lookupKey "author" fs)) fun author =>
    exBind (getReq fs "score" decNum) fun score =>
    exBind (getReq fs "id" decStr) fun id =>
    exBind (getOptVal decStr (lookupKey "text" fs)) fun text =>
    exBind (getOptVal (decList decStr) (lookupKey "highlights" fs)) fun highlights =>
    exBind (getOptVal (decList decNum) (lookupKey "highlightScores" fs)) fun highlight_scores =>
    .ok { title := title, url := url, published_date := published_date,
          author := author, score := score, id := id, text := text,
          highlights := highlights, highlight_scores := highlight_scores }
  | _ => .error "invalid type: expected an object"

/-- `SearchResponse` of `src/search.rs`: a required result list and two
optional strings renamed to `autopromptString` / `autoDate` (no
`skip_serializing_if`). -/
structure SearchResponse where
  results : List SearchResult
  autoprompt_string : Option String
  auto_date : Option String
deriving DecidableEq

/-- Serialization of `SearchResponse`. -/
def SearchResponse.toJsonFields (r : SearchResponse) : List (String × Json) :=
  [("results", Json.arr (r.results.map SearchResult.toJson)),
   ("autopromptString", encOptNull Json.str r.autoprompt_string),
   ("autoDate", encOptNull Json.str r.auto_date)]

/-- Serialization of `SearchResponse` as a JSON object. -/
def SearchResponse.toJson (r : SearchResponse) : Json :=
  Json.obj r.toJsonFields

/-- Deserialization of `SearchResponse`. -/
def SearchResponse.fromJson (j : Json) : Except String SearchResponse :=
  match j with
  | .obj fs =>
    exBind (getReq fs "results" (decList SearchResult.fromJson)) fun results =>
    exBind (getOptVal decStr (lookupKey "autopromptString" fs)) fun autoprompt_string =>
    exBind (getOptVal decStr (lookupKey "autoDate" fs)) fun auto_date =>
    .ok { results := results, autoprompt_string := autoprompt_string,
          auto_date := auto_date }
  | _ => .error "invalid type: expected an object"

/-- `FindSimilarRequest` of `src/find_similar.rs` (derives `Default`): a
required `url` plus optional fields, every optional field carrying
`skip_serializing_if = "Option::is_none"`. Unlike `SearchRequest`, no field
has a `#[serde(rename = ...)]` attribute, so the wire names are the
snake_case in-memory names. -/
structure FindSimilarRequest where
  url : String := ""
  num_results : Option U32 := none
  include_domains : Option (List String) := none
  exclude_domains : Option (List String) := none
  start_crawl_date : Option String := none
  end_crawl_date : Option String := none
  start_published_date : Option String := none
  end_published_date : Option String := none
  include_text : Option (List String) := none
  exclude_text : Option (List String) := none
  contents : Option SearchContent := none
deriving DecidableEq

/-- Serialization of `FindSimilarRequest`: unset optionals omitted, wire
names identical to the field names (no renames in the source). -/
def FindSimilarRequest.toJsonFields (r : FindSimilarRequest) : List (String × Json) :=
  [("url", Json.str r.url)]
  ++ optField "num_results" encU32 r.num_results
  ++ optField "include_domains" encStrList r.include_domains
  ++ optField "exclude_domains" encStrList r.exclude_domains
  ++ optField "start_crawl_date" Json.str r.start_crawl_date
  ++ optField "end_crawl_date" Json.str r.end_crawl_date
  ++ optField "start_published_date" Json.str r.start_published_date
  ++ optField "end_published_date" Json.str r.end_published_date
  ++ optField "include_text" encStrList r.include_text
  ++ optField "exclude_text" encStrList r.exclude_text
  ++ optField "contents" SearchContent.toJson r.contents

/-- Serialization of `FindSimilarRequest` as a JSON object. -/
def FindSimilarRequest.toJson (r : FindSimilarRequest) : Json :=
  Json.obj r.toJsonFields

/-- Deserialization of `FindSimilarRequest` (same snake_case wire names). -/
def FindSimilarRequest.fromJson (j : Json) : Except String FindSimilarRequest :=
  match j with
  | .obj fs =>
    exBind (getReq fs "url" decStr) fun url =>
    exBind (getOptVal decU32 (lookupKey "num_results" fs)) fun num_results =>
    exBind (getOptVal (decList decStr) (lookupKey "include_domains" fs)) fun include_domains =>
    exBind (getOptVal (decList decStr) (lookupKey "exclude_domains" fs)) fun exclude_domains =>
    exBind (getOptVal decStr (lookupKey "start_crawl_date" fs)) fun start_crawl_date =>
    exBind (getOptVal decStr (lookupKey "end_crawl_date" fs)) fun end_crawl_date =>
    exBind (getOptVal decStr (lookupKey "start_published_date" fs)) fun start_published_date =>
    exBind (getOptVal decStr (lookupKey "end_published_date" fs)) fun end_published_date =>
    exBind (getOptVal (decList decStr) (lookupKey "include_text" fs)) fun include_text =>
    exBind (getOptVal (decList decStr) (lookupKey "exclude_text" fs)) fun exclude_text =>
    exBind (getOptVal SearchContent.fromJson (lookupKey "contents" fs)) fun contents =>
    .ok { url := url, num_results := num_results, include_domains := include_domains,
          exclude_domains := exclude_domains, start_crawl_date := start_crawl_date,
          end_crawl_date := end_crawl_date, start_published_date := start_published_date,
          end_published_date := end_published_date, include_text := include_text,
          exclude_text := exclude_text, contents := contents }
  | _ => .error "invalid type: expected an object"

/-- `FindSimilarResponse` of `src/find_similar.rs`: a result list reusing
the search result schema. -/
structure FindSimilarResponse where
  results : List SearchResult
deriving DecidableEq

/-- Serialization of `FindSimilarResponse`. -/
def FindSimilarResponse.toJsonFields (r : FindSimilarResponse) : List (String × Json) :=
  [("results", Json.arr (r.results.map SearchResult.toJson))]

/-- Serialization of `FindSimilarResponse` as a JSON object. -/
def FindSimilarResponse.toJson (r : FindSimilarResponse) : Json :=
  Json.obj r.toJsonFields

/-- Deserialization of `FindSimilarResponse`. -/
def FindSimilarResponse.fromJson (j : Json) : Except String FindSimilarResponse :=
  match j with
  | .obj fs =>
    exBind (getReq fs "results" (decList SearchResult.fromJson)) fun results =>
    .ok { results := results }
  | _ => .error "invalid type: expected an object"

/-- `ContentsTextRequest` of `src/get_contents.rs`: both fields optional,
skipped when unset, no renames (snake_case wire names). Serialize-only in
the source. -/
structure ContentsTextRequest where
  max_characters : Option U32
  include_html_tags : Option Bool
deriving DecidableEq

/-- Serialization of `ContentsTextRequest`. -/
def ContentsTextRequest.toJsonFields (r : ContentsTextRequest) : List (String × Json) :=
  optField "max_characters" encU32 r.max_characters
  ++ optField "include_html_tags" Json.bool r.include_html_tags

/-- Serialization of `ContentsTextRequest` as a JSON object. -/
def ContentsTextRequest.toJson (r : ContentsTextRequest) : Json :=
  Json.obj r.toJsonFields

/-- `ContentsHighlightsRequest` of `src/get_contents.rs`: all fields
optional, skipped when unset, no renames. Serialize-only in the source. -/
structure ContentsHighlightsRequest where
  num_sentences : Option U32
  highlights_per_url : Option U32
  query : Option String
deriving DecidableEq

/-- Serialization of `ContentsHighlightsRequest`. -/
def ContentsHighlightsRequest.toJsonFields (r : ContentsHighlightsRequest) :
    List (String × Json) :=
  optField "num_sentences" encU32 r.num_sentences
  ++ optField "highlights_per_url" encU32 r.highlights_per_url
  ++ optField "query" Json.str r.query

/-- Serialization of `ContentsHighlightsRequest` as a JSON object. -/
def ContentsHighlightsRequest.toJson (r : ContentsHighlightsRequest) : Json :=
  Json.obj r.toJsonFields

/-- `ContentsSummaryRequest` of `src/get_contents.rs`: a single optional
`query` without `skip_serializing_if`, so `None` serializes as `null`.
Serialize-only in the source. -/
structure ContentsSummaryRequest where
  query : Option String
deriving DecidableEq

/-- Serialization of `ContentsSummaryRequest`. -/
def ContentsSummaryRequest.toJsonFields (r : ContentsSummaryRequest) :
    List (String × Json) :=
  [("query", encOptNull Json.str r.query)]

/-- Serialization of `ContentsSummaryRequest` as a JSON object. -/
def ContentsSummaryRequest.toJson (r : ContentsSummaryRequest) : Json :=
  Json.obj r.toJsonFields

/-- `ContentsRequest` of `src/get_contents.rs`: required `ids` plus three
optional nested sections, each skipped when unset, no renames.
Serialize-only in the source. -/
structure ContentsRequest where
  ids : List String
  text : Option ContentsTextRequest
  highlights : Option ContentsHighlightsRequest
  summary : Option ContentsSummaryRequest
deriving DecidableEq

/-- Serialization of `ContentsRequest`. -/
def ContentsRequest.toJsonFields (r : ContentsRequest) : List (String × Json) :=
  [("ids", encStrList r.ids)]
  ++ optField "text" ContentsTextRequest.toJson r.text
  ++ optField "highlights" ContentsHighlightsRequest.toJson r.highlights
  ++ optField "summary" ContentsSummaryRequest.toJson r.summary

/-- Serialization of `ContentsRequest` as a JSON object. -/
def ContentsRequest.toJson (r : ContentsRequest) : Json :=
  Json.obj r.toJsonFields

/-- `ContentsResult` of `src/get_contents.rs` (Deserialize-only): three
required strings and three optionals, no renames — in particular
`highlight_scores` is read from the snake_case wire name, unlike the search
result's `highlightScores`. -/
structure ContentsResult where
  id : String
  url : String
  title : String
  text : Option String
  highlights : Option (List String)
  highlight_scores : Option (List Rat)
deriving DecidableEq

/-- Deserialization of `ContentsResult`. -/
def ContentsResult.fromJson (j : Json) : Except String ContentsResult :=
  match j with
  | .obj fs =>
    exBind (getReq fs "id" decStr) fun id =>
    exBind (getReq fs "url" decStr) fun url =>
    exBind (getReq fs "title" decStr) fun title =>
    exBind (getOptVal decStr (lookupKey "text" fs)) fun text =>
    exBind (getOptVal (decList decStr) (lookupKey "highlights" fs)) fun highlights =>
    exBind (getOptVal (decList decNum) (lookupKey "highlight_scores" fs)) fun highlight_scores =>
    .ok { id := id, url := url, title := title, text := text,
          highlights := highlights, highlight_scores := highlight_scores }
  | _ => .error "invalid type: expected an object"

/-- `ContentsResponse` of `src/get_contents.rs` (Deserialize-only). -/
structure ContentsResponse where
  results : List ContentsResult
deriving DecidableEq

/-- Deserialization of `ContentsResponse`. -/
def ContentsResponse.fromJson (j : Json) : Except String ContentsResponse :=
  match j with
  | .obj fs =>
    exBind (getReq fs "results" (decList ContentsResult.fromJson)) fun results =>
    .ok { results := results }
  | _ => .error "invalid type: expected an object"

/-- Characters allowed after the first character of a URL scheme. -/
def schemeChar (c : Char) : Bool :=
  c.isAlphanum || c = '+' || c = '-' || c = '.'

/-- Split a character list at the first colon: `some (scheme, rest)` when a
colon occurs, `none` otherwise. -/
def splitScheme : List Char → Option (List Char × List Char)
  | [] => none
  | c :: rest =>
    if c = ':' then some ([], rest)
    else
      match splitScheme rest with
      | some (sch, r) => some (c :: sch, r)
      | none => none

/-- Modelled from the spec: `FindSimilarRequest::new` calls `Url::parse`
from the external `url` crate (not part of this repository), and the spec
only requires that the target "parses as a well-formed URL" (§4.2). The
WHATWG parser is approximated as: the string must have an ASCII-alpha-led
scheme terminated by a colon (otherwise `RelativeUrlWithoutBase`), and the
special network schemes must be followed by `//` and a nonempty host. This
agrees with `Url::parse` on the inputs the spec names
(`"https://example.com"` well-formed, `"not a valid url"` not). -/
def urlParses (s : String) : Bool :=
  match splitScheme s.toList with
  | none => false
  | some ([], _) => false
  | some (c :: cs, rest) =>
    if c.isAlpha && cs.all schemeChar then
      if ((c :: cs).map Char.toLower)
          ∈ ["http".toList, "https".toList, "ws".toList, "wss".toList, "ftp".toList] then
        match rest with
        | '/' :: '/' :: host => !((host.takeWhile (fun ch => ch ≠ '/')).isEmpty)
        | _ => false
      else true
    else false

/-- `FindSimilarRequest::new` of `src/find_similar.rs`: validate the URL
with `Url::parse` (here the modelled `urlParses`), then build the request
with every optional field left at its `Default` (unset); the input string is
stored unchanged. The `url` crate's parse error is collapsed to a single
message, since only its presence matters to the caller. -/
def FindSimilarRequest.new (url : String) : Except String FindSimilarRequest :=
  if urlParses url then .ok { url := url } else .error "invalid URL"

/-- `BASE_URL` of `src/lib.rs`. -/
def BASE_URL : String := "https://api.exa.ai"

/-- `API_KEY_HEADER` of `src/lib.rs`. -/
def API_KEY_HEADER : String := "x-api-key"

/-- The `Exa` client of `src/lib.rs`: API key and base URL (the reqwest
client handle carries no state relevant to the embedding; the network is
passed in as a `MockResponse`). -/
structure Exa where
  api_key : String
  base_url : String
deriving DecidableEq

/-- The `ExaBuilder` of `src/lib.rs`. -/
structure ExaBuilder where
  api_key : Option String
  base_url : Option String
deriving DecidableEq

/-- `ExaBuilder::build` of `src/lib.rs`. The read of the `EXA_API_KEY`
environment variable is passed in explicitly (`env_exa_api_key`); the
explicit key takes priority via `Option::or_else`, and when both are absent
construction fails with the source's `anyhow!` message, which names the
environment variable. -/
def ExaBuilder.build (b : ExaBuilder) (env_exa_api_key : Option String) :
    Except String Exa :=
  match b.api_key.or env_exa_api_key with
  | some k => .ok { api_key := k, base_url := b.base_url.getD BASE_URL }
  | none =>
    .error "API key is required. Set it explicitly or use the EXA_API_KEY environment variable"

/-- Validity of a single character of an HTTP header value, as checked by
`http::HeaderValue::from_str`: every byte must be `\t` or in `32..=255`
excluding 127. Code points below 128 encode to themselves in UTF-8 and
higher code points encode to bytes in `128..=255` (all valid), so the
byte-level check coincides with this character-level one. -/
def isValidHeaderChar (c : Char) : Bool :=
  c = '\t' || (32 ≤ c.toNat && c.toNat ≠ 127)

/-- Validity of an HTTP header value string (`HeaderValue::from_str`
succeeds exactly when every character is valid). -/
def validHeaderValue (s : String) : Bool :=
  s.toList.all isValidHeaderChar

/-- `HeaderValue::from_str`: `some` of the value when valid, `none` when the
constructor would fail (which the source turns into a panic via
`.expect("couldn't create header value")`). -/
def headerValueFromStr (s : String) : Option String :=
  if validHeaderValue s then some s else none

/-- `StatusCode::is_success` of reqwest: the 200–299 range. -/
def statusIsSuccess (s : Nat) : Bool :=
  200 ≤ s && s < 300

/-- The HTTP response the transport delivers to a call. The body is embedded
as a parsed JSON document; a body that is not JSON at all behaves, for every
deserialization in this client, exactly like a JSON document of the wrong
shape, so the embedding loses no distinguishable behavior. -/
structure MockResponse where
  status : Nat
  body : Json

/-- An observable side effect of one client call: the single HTTP POST
issued by each operation, and the `dbg!(&text)` logging that
`handle_response` in `src/lib.rs` performs on its error path. -/
inductive Effect where
  | httpPost (url : String) (headers : List (String × String)) (body : Json)
  | logDebug (body : Json)

/-- Result of a call in an embedding that must distinguish a returned value,
a returned error, and a Rust panic. -/
inductive Outcome (ε α : Type) where
  | ok (a : α)
  | err (e : ε)
  | panic (msg : String)

/-- `Exa::build_headers` of `src/lib.rs`: a single `x-api-key` header
carrying the raw API key; an invalid key panics through
`.expect("couldn't create header value")`. -/
def Exa.build_headers (e : Exa) : Outcome ExaError (List (String × String)) :=
  match headerValueFromStr e.api_key with
  | some v => .ok [(API_KEY_HEADER, v)]
  | none => .panic "couldn't create header value"

/-- `handle_response` of `src/lib.rs`: on success deserialize the body (a
failure converts to an error through `?`); on non-success read the body,
log it with `dbg!`, and `.unwrap()` the error-payload parse — a body that
does not parse as `{code, message}` panics. Returns the effects performed
together with the outcome. -/
def handle_response (dec : Json → Except String α) (resp : MockResponse) :
    List Effect × Outcome ExaError α :=
  (if statusIsSuccess resp.status then [] else [Effect.logDebug resp.body],
   if statusIsSuccess resp.status then
     match dec resp.body with
     | .ok d => .ok d
     | .error m => .err (.reqwest m)
   else
     match HttpErrorPayload.fromJson resp.body with
     | .ok p => .err (.httpError { status := resp.status, payload := p })
     | .error _ => .panic "called Result::unwrap() on an Err value")

/-- `Exa::post` of `src/lib.rs`: build headers (panicking on an invalid
key), issue one POST of the serialized request to `base_url ++ path`, and
classify the response with `handle_response`. -/
def Exa.post (e : Exa) (path : String) (body : Json)
    (dec : Json → Except String α) (resp : MockResponse) :
    List Effect × Outcome ExaError α :=
  match e.build_headers with
  | .ok headers =>
    let hr := handle_response dec resp
    (Effect.httpPost (e.base_url ++ path) headers body :: hr.1, hr.2)
  | .err er => ([], .err er)
  | .panic m => ([], .panic m)

/-- `Exa::search` of `src/search.rs`: builds its own header map inline with
value `format!("Bearer {}", api_key)` (panicking on an invalid value),
POSTs the serialized request to `base_url ++ "/search"`, and classifies the
response inline — non-success bodies are parsed as the error payload with
`?` (no logging, no unwrap), success bodies as `SearchResponse`. -/
def Exa.search (e : Exa) (request : SearchRequest) (resp : MockResponse) :
    List Effect × Outcome ExaError SearchResponse :=
  match headerValueFromStr ("Bearer " ++ e.api_key) with
  | none => ([], .panic "couldn't create header value")
  | some v =>
    ([Effect.httpPost (e.base_url ++ "/search") [("x-api-key", v)]
        (SearchRequest.toJson request)],
     if statusIsSuccess resp.status then
       match SearchResponse.fromJson resp.body with
       | .ok d => .ok d
       | .error m => .err (.reqwest m)
     else
       match HttpErrorPayload.fromJson resp.body with
       | .ok p => .err (.httpError { status := resp.status, payload := p })
       | .error m => .err (.reqwest m))

/-- `Exa::find_similar` of `src/find_similar.rs`: identical structure to
`Exa::search` (inline `Bearer`-prefixed header, inline classification, no
logging, no unwrap), against `base_url ++ "/findSimilar"`. It performs no
validation of `request.url`. -/
def Exa.find_similar (e : Exa) (request : FindSimilarRequest) (resp : MockResponse) :
    List Effect × Outcome ExaError FindSimilarResponse :=
  match headerValueFromStr ("Bearer " ++ e.api_key) with
  | none => ([], .panic "couldn't create header value")
  | some v =>
    ([Effect.httpPost (e.base_url ++ "/findSimilar") [("x-api-key", v)]
        (FindSimilarRequest.toJson request)],
     if statusIsSuccess resp.status then
       match FindSimilarResponse.fromJson resp.body with
       | .ok d => .ok d
       | .error m => .err (.reqwest m)
     else
       match HttpErrorPayload.fromJson resp.body with
       | .ok p => .err (.httpError { status := resp.status, payload := p })
       | .error m => .err (.reqwest m))

/-- `Exa::get_contents` of `src/get_contents.rs`: a pure delegation to the
shared `Exa::post` dispatch with path `/contents`. -/
def Exa.get_contents (e : Exa) (request : ContentsRequest) (resp : MockResponse) :
    List Effect × Outcome ExaError ContentsResponse :=
  e.post "/contents" (ContentsRequest.toJson request) ContentsResponse.fromJson resp

/-- Headers of the first HTTP POST in an effect list (`none` when the call
panicked before sending anything). -/
def postHeaders : List Effect → Option (List (String × String))
  | Effect.httpPost _ hs _ :: _ => some hs
  | _ => none

theorem lookupKey_nil (k : String) : lookupKey k [] = none := rfl

theorem lookupKey_cons_self (k : String) (v : Json) (fs : List (String × Json)) :
    lookupKey k ((k, v) :: fs) = some v := by
  simp [lookupKey]

theorem lookupKey_cons_ne (k k' : String) (v : Json) (fs : List (String × Json))
    (h : k' ≠ k) : lookupKey k ((k', v) :: fs) = lookupKey k fs := by
  simp [lookupKey, h]

theorem lookupKey_append (k : String) (xs ys : List (String × Json)) :
    lookupKey k (xs ++ ys) = (lookupKey k xs).or (lookupKey k ys) := by
  induction xs with
  | nil => simp [lookupKey, Option.or]
  | cons p rest ih =>
    obtain ⟨k', v⟩ := p
    by_cases h : k' = k <;> simp [lookupKey, h, ih, Option.or]

theorem lookupKey_optField_self (k : String) (enc : α → Json) (o : Option α) :
    lookupKey k (optField k enc o) = o.map enc := by
  cases o <;> simp [optField, lookupKey]

theorem lookupKey_optField_ne (k k' : String) (enc : α → Json) (o : Option α)
    (h : k' ≠ k) : lookupKey k (optField k' enc o) = none := by
  cases o <;> simp [optField, lookupKey, h]

theorem option_none_or (o : Option α) : Option.or none o = o := rfl

theorem option_or_none (o : Option α) : Option.or o none = o := by
  cases o <;> rfl

theorem getOptVal_map (dec : Json → Except String α) (enc : α → Json)
    (hd : ∀ a, dec (enc a) = .ok a) (hn : ∀ a, (enc a).isNull = false)
    (o : Option α) : getOptVal dec (Option.map enc o) = .ok o := by
  cases o with
  | none => rfl
  | some a => simp [getOptVal, hn, hd]

theorem getOptVal_encOptNull (dec : Json → Except String α) (enc : α → Json)
    (hd : ∀ a, dec (enc a) = .ok a) (hn : ∀ a, (enc a).isNull = false)
    (o : Option α) : getOptVal dec (some (encOptNull enc o)) = .ok o := by
  cases o with
  | none => rfl
  | some a => simp [encOptNull, getOptVal, hn, hd]

theorem decU32_encU32 (n : U32) : decU32 (encU32 n) = .ok n := by
  have h : ((n.val : Rat)).den = 1 ∧ 0 ≤ ((n.val : Rat)).num ∧
      ((n.val : Rat)).num < 4294967296 := by
    refine ⟨Rat.den_natCast _, ?_, ?_⟩ <;> rw [Rat.num_natCast]
    · exact_mod_cast Nat.zero_le _
    · exact_mod_cast n.isLt
  simp only [decU32, encU32, dif_pos h]
  congr 1

theorem decodeAll_map (dec : Json → Except String α) (enc : α → Json)
    (hd : ∀ a, dec (enc a) = .ok a) (xs : List α) :
    decodeAll dec (xs.map enc) = .ok xs := by
  induction xs with
  | nil => rfl
  | cons a rest ih => simp [decodeAll, hd, ih]

theorem decList_encStrList (xs : List String) :
    decList decStr (encStrList xs) = .ok xs := by
  simpa [decList, encStrList] using decodeAll_map decStr Json.str (fun _ => rfl) xs

theorem decList_encRatList (xs : List Rat) :
    decList decNum (encRatList xs) = .ok xs := by
  simpa [decList, encRatList] using decodeAll_map decNum Json.num (fun _ => rfl) xs

theorem searchKind_roundtrip (k : SearchKind) :
    SearchKind.fromJson (SearchKind.toJson k) = .ok k := by
  cases k <;> rfl

theorem searchKind_toJson_isNull (k : SearchKind) :
    (SearchKind.toJson k).isNull = false := by
  cases k <;> rfl

theorem getOptVal_str (o : Option String) :
    getOptVal decStr (Option.map Json.str o) = .ok o :=
  getOptVal_map decStr Json.str (fun _ => rfl) (fun _ => rfl) o

theorem getOptVal_bool (o : Option Bool) :
    getOptVal decBool (Option.map Json.bool o) = .ok o :=
  getOptVal_map decBool Json.bool (fun _ => rfl) (fun _ => rfl) o

theorem getOptVal_u32 (o : Option U32) :
    getOptVal decU32 (Option.map encU32 o) = .ok o :=
  getOptVal_map decU32 encU32 decU32_encU32 (fun _ => rfl) o

theorem getOptVal_strList (o : Option (List String)) :
    getOptVal (decList decStr) (Option.map encStrList o) = .ok o :=
  getOptVal_map _ encStrList decList_encStrList (fun _ => rfl) o

theorem getOptVal_kind (o : Option SearchKind) :
    getOptVal SearchKind.fromJson (Option.map SearchKind.toJson o) = .ok o :=
  getOptVal_map _ SearchKind.toJson searchKind_roundtrip searchKind_toJson_isNull o

theorem getOptValN_str (o : Option String) :
    getOptVal decStr (some (encOptNull Json.str o)) = .ok o :=
  getOptVal_encOptNull decStr Json.str (fun _ => rfl) (fun _ => rfl) o

theorem getOptValN_bool (o : Option Bool) :
    getOptVal decBool (some (encOptNull Json.bool o)) = .ok o :=
  getOptVal_encOptNull decBool Json.bool (fun _ => rfl) (fun _ => rfl) o

theorem getOptValN_u32 (o : Option U32) :
    getOptVal decU32 (some (encOptNull encU32 o)) = .ok o :=
  getOptVal_encOptNull decU32 encU32 decU32_encU32 (fun _ => rfl) o

theorem getOptValN_strList (o : Option (List String)) :
    getOptVal (decList decStr) (some (encOptNull encStrList o)) = .ok o :=
  getOptVal_encOptNull _ encStrList decList_encStrList (fun _ => rfl) o

theorem getOptValN_ratList (o : Option (List Rat)) :
    getOptVal (decList decNum) (some (encOptNull encRatList o)) = .ok o :=
  getOptVal_encOptNull _ encRatList decList_encRatList (fun _ => rfl) o

theorem searchContentText_roundtrip (c : SearchContentText) :
    SearchContentText.fromJson (SearchContentText.toJson c) = .ok c := by
  obtain ⟨mc, ih⟩ := c
  simp +decide [SearchContentText.toJson, SearchContentText.toJsonFields,
    SearchContentText.fromJson, lookupKey_cons_self, lookupKey_cons_ne,
    getOptValN_u32, getOptValN_bool, exBind]

theorem searchHighlights_roundtrip (h : SearchHighlights) :
    SearchHighlights.fromJson (SearchHighlights.toJson h) = .ok h := by
  obtain ⟨ns, hp, q⟩ := h
  simp +decide [SearchHighlights.toJson, SearchHighlights.toJsonFields,
    SearchHighlights.fromJson, lookupKey_cons_self, lookupKey_cons_ne,
    getOptValN_u32, getOptValN_str, exBind]

theorem searchSummary_roundtrip (s : SearchSummary) :
    SearchSummary.fromJson (SearchSummary.toJson s) = .ok s := by
  obtain ⟨su, q⟩ := s
  simp +decide [SearchSummary.toJson, SearchSummary.toJsonFields,
    SearchSummary.fromJson, lookupKey_cons_self, lookupKey_cons_ne,
    getOptValN_str, getReq, decStr, exBind]

theorem searchContent_roundtrip (c : SearchContent) :
    SearchContent.fromJson (SearchContent.toJson c) = .ok c := by
  obtain ⟨t, h, s⟩ := c
  simp +decide [SearchContent.toJson, SearchContent.toJsonFields,
    SearchContent.fromJson, lookupKey_cons_self, lookupKey_cons_ne, exBind,
    getOptVal_encOptNull _ _ searchContentText_roundtrip (fun _ => rfl),
    getOptVal_encOptNull _ _ searchHighlights_roundtrip (fun _ => rfl),
    getOptVal_encOptNull _ _ searchSummary_roundtrip (fun _ => rfl)]

theorem getOptValN_content (o : Option SearchContent) :
    getOptVal SearchContent.fromJson (some (encOptNull SearchContent.toJson o)) = .ok o :=
  getOptVal_encOptNull _ SearchContent.toJson searchContent_roundtrip (fun _ => rfl) o

theorem getOptVal_content (o : Option SearchContent) :
    getOptVal SearchContent.fromJson (Option.map SearchContent.toJson o) = .ok o :=
  getOptVal_map _ SearchContent.toJson searchContent_roundtrip (fun _ => rfl) o

theorem searchResult_roundtrip (r : SearchResult) :
    SearchResult.fromJson (SearchResult.toJson r) = .ok r := by
  obtain ⟨t, u, pd, a, sc, i, tx, hl, hs⟩ := r
  simp +decide [SearchResult.toJson, SearchResult.toJsonFields, SearchResult.fromJson,
    lookupKey_cons_self, lookupKey_cons_ne, getReq, decStr, decNum,
    getOptValN_str, getOptValN_strList, getOptValN_ratList, exBind]

theorem searchResponse_roundtrip (r : SearchResponse) :
    SearchResponse.fromJson (SearchResponse.toJson r) = .ok r := by
  obtain ⟨rs, au, ad⟩ := r
  simp +decide [SearchResponse.toJson, SearchResponse.toJsonFields,
    SearchResponse.fromJson, lookupKey_cons_self, lookupKey_cons_ne, getReq,
    decList, decodeAll_map _ _ searchResult_roundtrip, getOptValN_str, exBind]

theorem searchRequest_roundtrip (r : SearchRequest) :
    SearchRequest.fromJson (SearchRequest.toJson r) = .ok r := by
  obtain ⟨q, ua, k, it, nr, idm, edm, scd, ecd, spd, epd, et, c⟩ := r
  simp +decide [SearchRequest.toJson, SearchRequest.toJsonFields, SearchRequest.fromJson,
    lookupKey_cons_self, lookupKey_cons_ne, lookupKey_append, lookupKey_nil,
    lookupKey_optField_self, lookupKey_optField_ne, option_none_or, option_or_none,
    getReq, decStr, getOptVal_bool, getOptVal_kind, getOptVal_strList,
    getOptVal_u32, getOptVal_str, getOptValN_content, exBind]

theorem findSimilarRequest_roundtrip (r : FindSimilarRequest) :
    FindSimilarRequest.fromJson (FindSimilarRequest.toJson r) = .ok r := by
  obtain ⟨u, nr, idm, edm, scd, ecd, spd, epd, it, et, c⟩ := r
  simp +decide [FindSimilarRequest.toJson, FindSimilarRequest.toJsonFields,
    FindSimilarRequest.fromJson, lookupKey_cons_self, lookupKey_cons_ne,
    lookupKey_append, lookupKey_nil, lookupKey_optField_self, lookupKey_optField_ne,
    option_none_or, option_or_none, getReq, decStr, getOptVal_u32,
    getOptVal_strList, getOptVal_str, getOptVal_content, exBind]

theorem findSimilarResponse_roundtrip (r : FindSimilarResponse) :
    FindSimilarResponse.fromJson (FindSimilarResponse.toJson r) = .ok r := by
  obtain ⟨rs⟩ := r
  simp +decide [FindSimilarResponse.toJson, FindSimilarResponse.toJsonFields,
    FindSimilarResponse.fromJson, lookupKey_cons_self, getReq, decList,
    decodeAll_map _ _ searchResult_roundtrip, exBind]

theorem validHeaderValue_append (a b : String) :
    validHeaderValue (a ++ b) = (validHeaderValue a && validHeaderValue b) := by
  simp [validHeaderValue, String.toList]

/-- C1: the claim states that for every non-success HTTP response whose body
fails to parse as the expected `{code, message}` error-payload schema, the
dispatch operation returns a `DecodeError` rather than crashing (the panic
branch being unreachable). The code contradicts this: `handle_response` in
`src/lib.rs` calls `.unwrap()` on the payload parse, so at the concrete
failing input — a 500 response whose body is the JSON object `{}`, which
lacks both required fields — the shared dispatch (and hence `get_contents`,
the one operation routed through it) panics instead of returning any
`ExaError`. -/
theorem c1_unwrap_panic_reachable :
    (handle_response ContentsResponse.fromJson { status := 500, body := Json.obj [] }).2
      = Outcome.panic "called Result::unwrap() on an Err value"
  ∧ (Exa.get_contents { api_key := "k", base_url := BASE_URL }
        { ids := [], text := none, highlights := none, summary := none }
        { status := 500, body := Json.obj [] }).2
      = Outcome.panic "called Result::unwrap() on an Err value" :=
  ⟨rfl, rfl⟩

/-- C4 counterexample: the claim states that a request value with only its
required fields set serializes with every optional field omitted and no
`null` placeholders. For `SearchRequest { query: "q", ..Default }` the wire
payload nevertheless contains `"contents": null`, because `contents` is the
one optional field without `skip_serializing_if` in `src/search.rs`. -/
theorem c4_counterexample :
    ("contents", Json.null) ∈ SearchRequest.toJsonFields { query := "q" } :=
  List.mem_cons_of_mem _ (List.mem_cons_self _ _)

/-- C4 amended: for request values with only required fields set,
serialization omits every unset optional field — except `SearchRequest`'s
`contents`, which lacks the omit-when-unset attribute in the source and is
emitted as an explicit `null` placeholder; `find_similar` and `get_contents`
requests emit exactly their required fields. -/
theorem c4_required_only_serialization :
    (∀ q : String, SearchRequest.toJsonFields { query := q }
        = [("query", Json.str q), ("contents", Json.null)])
  ∧ (∀ u : String, FindSimilarRequest.toJsonFields { url := u }
        = [("url", Json.str u)])
  ∧ (∀ ids : List String, ContentsRequest.toJsonFields
        { ids := ids, text := none, highlights := none, summary := none }
        = [("ids", encStrList ids)]) :=
  ⟨fun _ => rfl, fun _ => rfl, fun _ => rfl⟩

/-- C6: client construction resolves the API key with the documented
precedence — an explicit value wins, the `EXA_API_KEY` environment reading
is the fallback, and with both absent construction fails (no client value)
with the source's error message, which names the expected environment
variable (the final conjunct checks that `EXA_API_KEY` literally occurs in
the message); with either source set, construction succeeds. -/
theorem c6_build_key_precedence :
    (∀ (k : String) (bu env : Option String),
        ExaBuilder.build { api_key := some k, base_url := bu } env
          = .ok { api_key := k, base_url := bu.getD BASE_URL })
  ∧ (∀ (k : String) (bu : Option String),
        ExaBuilder.build { api_key := none, base_url := bu } (some k)
          = .ok { api_key := k, base_url := bu.getD BASE_URL })
  ∧ (∀ bu : Option String,
        ExaBuilder.build { api_key := none, base_url := bu } none
          = .error "API key is required. Set it explicitly or use the EXA_API_KEY environment variable")
  ∧ (∃ pre post : String,
        "API key is required. Set it explicitly or use the EXA_API_KEY environment variable"
          = pre ++ "EXA_API_KEY" ++ post) :=
  ⟨fun _ _ _ => rfl, fun _ _ => rfl, fun _ => rfl,
   ⟨"API key is required. Set it explicitly or use the ", " environment variable", by decide⟩⟩

/-- C7: `FindSimilarRequest::new` fails on every input the (modelled)
`Url::parse` rejects — returning an error before any request value exists,
so no network call can be attempted — and succeeds on every well-formed URL
string, storing the input unchanged in `url` with every optional field
unset. -/
theorem c7_find_similar_new_validates (s : String) :
    (urlParses s = false → FindSimilarRequest.new s = .error "invalid URL")
  ∧ (urlParses s = true → FindSimilarRequest.new s
      = .ok { url := s, num_results := none, include_domains := none,
              exclude_domains := none, start_crawl_date := none,
              end_crawl_date := none, start_published_date := none,
              end_published_date := none, include_text := none,
              exclude_text := none, contents := none }) := by
  constructor <;> intro h <;> simp [FindSimilarRequest.new, h]

/-- C7 witness: the spec's two named inputs, evaluated concretely. -/
theorem c7_witness :
    (urlParses "not a valid url" = false
      ∧ FindSimilarRequest.new "not a valid url" = .error "invalid URL")
  ∧ (urlParses "https://example.com" = true
      ∧ FindSimilarRequest.new "https://example.com"
          = .ok { url := "https://example.com", num_results := none,
                  include_domains := none, exclude_domains := none,
                  start_crawl_date := none, end_crawl_date := none,
                  start_published_date := none, end_published_date := none,
                  include_text := none, exclude_text := none, contents := none }) :=
  ⟨⟨by decide, (c7_find_similar_new_validates "not a valid url").1 (by decide)⟩,
   ⟨by decide, (c7_find_similar_new_validates "https://example.com").2 (by decide)⟩⟩

/-- C5: every call to any of the three operations that receives a
non-success status together with a body parseable as `{code, message}`
returns exactly `HttpError` with that numeric status and that parsed
payload — the outcome is an error, so no response value is produced. -/
theorem c5_http_error_classification (e : Exa) (sreq : SearchRequest)
    (freq : FindSimilarRequest) (creq : ContentsRequest) (status : Nat)
    (body : Json) (p : HttpErrorPayload)
    (hkey : validHeaderValue e.api_key = true)
    (hst : statusIsSuccess status = false)
    (hp : HttpErrorPayload.fromJson body = .ok p) :
    (e.search sreq { status := status, body := body }).2
      = .err (.httpError { status := status, payload := p })
  ∧ (e.find_similar freq { status := status, body := body }).2
      = .err (.httpError { status := status, payload := p })
  ∧ (e.get_contents creq { status := status, body := body }).2
      = .err (.httpError { status := status, payload := p }) := by
  have hb : validHeaderValue ("Bearer " ++ e.api_key) = true := by
    rw [validHeaderValue_append, hkey]; decide
  refine ⟨?_, ?_, ?_⟩ <;>
    simp [Exa.search, Exa.find_similar, Exa.get_contents, Exa.post,
      Exa.build_headers, handle_response, headerValueFromStr, hb, hkey, hst, hp]

/-- C5 witness: the spec's mocked `400` with body
`{"code":"bad_request","message":"Invalid request parameters"}`, evaluated
concretely on all three operations. -/
theorem c5_witness :
    validHeaderValue "test_key" = true
  ∧ statusIsSuccess 400 = false
  ∧ HttpErrorPayload.fromJson (Json.obj [("code", Json.str "bad_request"),
      ("message", Json.str "Invalid request parameters")])
      = .ok { code := "bad_request", message := "Invalid request parameters" }
  ∧ ((Exa.mk "test_key" "http://127.0.0.1:1234").search { query := "q" }
      { status := 400, body := Json.obj [("code", Json.str "bad_request"),
          ("message", Json.str "Invalid request parameters")] }).2
      = .err (.httpError (HttpError.mk 400
          (HttpErrorPayload.mk "bad_request" "Invalid request parameters")))
  ∧ ((Exa.mk "test_key" "http://127.0.0.1:1234").find_similar { url := "https://example.com" }
      { status := 400, body := Json.obj [("code", Json.str "bad_request"),
          ("message", Json.str "Invalid request parameters")] }).2
      = .err (.httpError (HttpError.mk 400
          (HttpErrorPayload.mk "bad_request" "Invalid request parameters")))
  ∧ ((Exa.mk "test_key" "http://127.0.0.1:1234").get_contents
      { ids := ["id1"], text := none, highlights := none, summary := none }
      { status := 400, body := Json.obj [("code", Json.str "bad_request"),
          ("message", Json.str "Invalid request parameters")] }).2
      = .err (.httpError (HttpError.mk 400
          (HttpErrorPayload.mk "bad_request" "Invalid request parameters"))) := by
  have h := c5_http_error_classification (Exa.mk "test_key" "http://127.0.0.1:1234")
    { query := "q" } { url := "https://example.com" }
    { ids := ["id1"], text := none, highlights := none, summary := none } 400
    (Json.obj [("code", Json.str "bad_request"),
      ("message", Json.str "Invalid request parameters")])
    { code := "bad_request", message := "Invalid request parameters" } rfl rfl rfl
  exact ⟨rfl, rfl, rfl, h.1, h.2.1, h.2.2⟩

/-- C2 counterexample: the claim states that all three operations attach the
API key with the same header name and the same value format. With the same
client (key `"k"`), `search` sends the value `"Bearer k"` while
`get_contents` sends the raw `"k"`, so the headers of the issued POSTs
differ. -/
theorem c2_counterexample :
    postHeaders ((Exa.mk "k" BASE_URL).search { query := "q" }
        { status := 404, body := Json.null }).1
  ≠ postHeaders ((Exa.mk "k" BASE_URL).get_contents
        { ids := [], text := none, highlights := none, summary := none }
        { status := 404, body := Json.null }).1 := by
  decide

/-- C2 amended: all three operations do use the same header NAME
(`x-api-key`), but not the same value format — `search` and `find_similar`
send `"Bearer " ++ key` (built inline in `src/search.rs` /
`src/find_similar.rs`), while `get_contents` (through
`Exa::build_headers` in `src/lib.rs`) sends the raw key. -/
theorem c2_auth_header_convention (e : Exa) (sreq : SearchRequest)
    (freq : FindSimilarRequest) (creq : ContentsRequest) (resp : MockResponse)
    (hkey : validHeaderValue e.api_key = true) :
    postHeaders (e.search sreq resp).1 = some [("x-api-key", "Bearer " ++ e.api_key)]
  ∧ postHeaders (e.find_similar freq resp).1 = some [("x-api-key", "Bearer " ++ e.api_key)]
  ∧ postHeaders (e.get_contents creq resp).1 = some [("x-api-key", e.api_key)] := by
  have hb : validHeaderValue ("Bearer " ++ e.api_key) = true := by
    rw [validHeaderValue_append, hkey]; decide
  refine ⟨?_, ?_, ?_⟩ <;>
    simp [Exa.search, Exa.find_similar, Exa.get_contents, Exa.post,
      Exa.build_headers, headerValueFromStr, hb, hkey, postHeaders, API_KEY_HEADER]

/-- C2 amended witness: the header values of the three operations at the
concrete key `"k"`. -/
theorem c2_witness :
    validHeaderValue "k" = true
  ∧ postHeaders ((Exa.mk "k" BASE_URL).search { query := "q" }
        { status := 200, body := Json.null }).1 = some [("x-api-key", "Bearer " ++ "k")]
  ∧ postHeaders ((Exa.mk "k" BASE_URL).find_similar { url := "https://example.com" }
        { status := 200, body := Json.null }).1 = some [("x-api-key", "Bearer " ++ "k")]
  ∧ postHeaders ((Exa.mk "k" BASE_URL).get_contents
        { ids := [], text := none, highlights := none, summary := none }
        { status := 200, body := Json.null }).1 = some [("x-api-key", "k")] := by
  have h := c2_auth_header_convention (Exa.mk "k" BASE_URL) { query := "q" }
    { url := "https://example.com" }
    { ids := [], text := none, highlights := none, summary := none }
    { status := 200, body := Json.null } rfl
  exact ⟨rfl, h.1, h.2.1, h.2.2⟩

/-- C8 counterexample: the claim states that no call performs internal
logging and that a call has no side effect beyond the single network
request. The shared dispatch contradicts this: `handle_response` in
`src/lib.rs` executes `dbg!(&text)` on its error path, so a `get_contents`
call that receives a 400 performs a debug-log effect in addition to the
POST. -/
theorem c8_counterexample :
    ¬ (∀ b : Json, Effect.logDebug b ∉
        ((Exa.mk "k" BASE_URL).get_contents
          { ids := [], text := none, highlights := none, summary := none }
          { status := 400, body := Json.obj [("code", Json.str "bad_request"),
              ("message", Json.str "Invalid request parameters")] }).1) := by
  intro h
  exact h _ (List.mem_cons_of_mem _ (List.mem_cons_self _ _))

/-- C8 amended: every call issues exactly one HTTP POST and never retries,
and each error surfaces in the outcome; `search` and `find_similar` log
nothing, but `get_contents` — the one operation routed through the shared
`handle_response` — additionally logs the raw error body (the source's
`dbg!(&text)`) on every non-success response. -/
theorem c8_single_request_logging (e : Exa) (sreq : SearchRequest)
    (freq : FindSimilarRequest) (creq : ContentsRequest) (resp : MockResponse)
    (hkey : validHeaderValue e.api_key = true) :
    (e.search sreq resp).1
      = [Effect.httpPost (e.base_url ++ "/search")
          [("x-api-key", "Bearer " ++ e.api_key)] (SearchRequest.toJson sreq)]
  ∧ (e.find_similar freq resp).1
      = [Effect.httpPost (e.base_url ++ "/findSimilar")
          [("x-api-key", "Bearer " ++ e.api_key)] (FindSimilarRequest.toJson freq)]
  ∧ (e.get_contents creq resp).1
      = Effect.httpPost (e.base_url ++ "/contents")
          [("x-api-key", e.api_key)] (ContentsRequest.toJson creq)
        :: (if statusIsSuccess resp.status then [] else [Effect.logDebug resp.body]) := by
  have hb : validHeaderValue ("Bearer " ++ e.api_key) = true := by
    rw [validHeaderValue_append, hkey]; decide
  refine ⟨?_, ?_, ?_⟩ <;>
    simp [Exa.search, Exa.find_similar, Exa.get_contents, Exa.post,
      Exa.build_headers, handle_response, headerValueFromStr, hb, hkey, API_KEY_HEADER]

/-- C8 amended witness: effect traces at a concrete client, request, and
non-success response. -/
theorem c8_witness :
    validHeaderValue "k" = true
  ∧ ((Exa.mk "k" BASE_URL).search { query := "q" } { status := 400, body := Json.null }).1
      = [Effect.httpPost (BASE_URL ++ "/search")
          [("x-api-key", "Bearer " ++ "k")] (SearchRequest.toJson { query := "q" })]
  ∧ ((Exa.mk "k" BASE_URL).find_similar { url := "https://example.com" }
        { status := 400, body := Json.null }).1
      = [Effect.httpPost (BASE_URL ++ "/findSimilar")
          [("x-api-key", "Bearer " ++ "k")]
          (FindSimilarRequest.toJson { url := "https://example.com" })]
  ∧ ((Exa.mk "k" BASE_URL).get_contents
        { ids := [], text := none, highlights := none, summary := none }
        { status := 400, body := Json.null }).1
      = Effect.httpPost (BASE_URL ++ "/contents") [("x-api-key", "k")]
          (ContentsRequest.toJson { ids := [], text := none, highlights := none, summary := none })
        :: (if statusIsSuccess 400 then [] else [Effect.logDebug Json.null]) := by
  have h := c8_single_request_logging (Exa.mk "k" BASE_URL) { query := "q" }
    { url := "https://example.com" }
    { ids := [], text := none, highlights := none, summary := none }
    { status := 400, body := Json.null } rfl
  exact ⟨rfl, h.1, h.2.1, h.2.2⟩

/-- C9: `FindSimilarRequest`'s fields are public, so a caller can build a
request without `FindSimilarRequest::new` — in this embedding, any value of
the structure. For every such value, including ones whose `url` is empty or
not a well-formed URL, `find_similar` issues the network call with the
request serialized as-is: no `InvalidInput` check exists in the operation
(its outcome type cannot even carry the constructor's validation error),
the check living only in the constructor. -/
theorem c9_no_url_validation_on_call (e : Exa) (req : FindSimilarRequest)
    (resp : MockResponse) (hkey : validHeaderValue e.api_key = true) :
    (e.find_similar req resp).1
      = [Effect.httpPost (e.base_url ++ "/findSimilar")
          [("x-api-key", "Bearer " ++ e.api_key)] (FindSimilarRequest.toJson req)] := by
  have hb : validHeaderValue ("Bearer " ++ e.api_key) = true := by
    rw [validHeaderValue_append, hkey]; decide
  simp [Exa.find_similar, headerValueFromStr, hb]

/-- C9 witness: a directly-constructed request whose `url` (the empty
string) is not a well-formed URL still produces the POST. -/
theorem c9_witness :
    urlParses "" = false
  ∧ ((Exa.mk "k" BASE_URL).find_similar { url := "" }
        { status := 200, body := Json.obj [("results", Json.arr [])] }).1
      = [Effect.httpPost (BASE_URL ++ "/findSimilar")
          [("x-api-key", "Bearer " ++ "k")] (FindSimilarRequest.toJson { url := "" })] :=
  ⟨by decide,
   c9_no_url_validation_on_call (Exa.mk "k" BASE_URL) { url := "" }
     { status := 200, body := Json.obj [("results", Json.arr [])] } rfl⟩

/-- C10: an API key that is not a valid HTTP header value is accepted by
client construction (the builder performs no validation), and each of the
three operations then panics through
`.expect("couldn't create header value")` while building the
authentication header, instead of returning a typed error. -/
theorem c10_invalid_key_panics (key : String) (bu env : Option String)
    (b : String) (sreq : SearchRequest) (freq : FindSimilarRequest)
    (creq : ContentsRequest) (resp : MockResponse)
    (hkey : validHeaderValue key = false) :
    ExaBuilder.build { api_key := some key, base_url := bu } env
      = .ok { api_key := key, base_url := bu.getD BASE_URL }
  ∧ (Exa.search { api_key := key, base_url := b } sreq resp).2
      = .panic "couldn't create header value"
  ∧ (Exa.find_similar { api_key := key, base_url := b } freq resp).2
      = .panic "couldn't create header value"
  ∧ (Exa.get_contents { api_key := key, base_url := b } creq resp).2
      = .panic "couldn't create header value" := by
  have hb : validHeaderValue ("Bearer " ++ key) = false := by
    rw [validHeaderValue_append, hkey]; simp
  refine ⟨rfl, ?_, ?_, ?_⟩ <;>
    simp [Exa.search, Exa.find_similar, Exa.get_contents, Exa.post,
      Exa.build_headers, headerValueFromStr, hb, hkey]

/-- C10 witness: a key containing a newline — rejected by
`HeaderValue::from_str` — at concrete requests and a concrete response. -/
theorem c10_witness :
    validHeaderValue "bad\nkey" = false
  ∧ ExaBuilder.build { api_key := some "bad\nkey", base_url := none } none
      = .ok { api_key := "bad\nkey", base_url := BASE_URL }
  ∧ (Exa.search { api_key := "bad\nkey", base_url := BASE_URL } { query := "q" }
        { status := 200, body := Json.null }).2 = .panic "couldn't create header value"
  ∧ (Exa.find_similar { api_key := "bad\nkey", base_url := BASE_URL }
        { url := "https://example.com" } { status := 200, body := Json.null }).2
      = .panic "couldn't create header value"
  ∧ (Exa.get_contents { api_key := "bad\nkey", base_url := BASE_URL }
        { ids := [], text := none, highlights := none, summary := none }
        { status := 200, body := Json.null }).2 = .panic "couldn't create header value" := by
  have h := c10_invalid_key_panics "bad\nkey" none none BASE_URL { query := "q" }
    { url := "https://example.com" }
    { ids := [], text := none, highlights := none, summary := none }
    { status := 200, body := Json.null } rfl
  exact ⟨rfl, h.1, h.2.1, h.2.2.1, h.2.2.2⟩

theorem getOptVal_some_str (tx : String) :
    getOptVal decStr (some (Json.str tx)) = .ok (some tx) := rfl

theorem getOptVal_some_strList (hl : List String) :
    getOptVal (decList decStr) (some (encStrList hl)) = .ok (some hl) := by
  simp [getOptVal, encStrList, Json.isNull, decList,
    decodeAll_map decStr Json.str (fun _ => rfl)]

theorem getOptVal_some_ratList (hs : List Rat) :
    getOptVal (decList decNum) (some (encRatList hs)) = .ok (some hs) := by
  simp [getOptVal, encRatList, Json.isNull, decList,
    decodeAll_map decNum Json.num (fun _ => rfl)]

/-- C3 counterexample: the claim states that every field of every request
and response type serializes under the documented camelCase wire name. For
`FindSimilarRequest` with `num_results` set, serialization emits the
snake_case key `num_results` and not the documented `numResults` — the
source's `FindSimilarRequest` has no `#[serde(rename = ...)]` attributes. -/
theorem c3_counterexample :
    "num_results" ∈ (FindSimilarRequest.toJsonFields
        { url := "https://example.com", num_results := some 1 }).map Prod.fst
  ∧ "numResults" ∉ (FindSimilarRequest.toJsonFields
        { url := "https://example.com", num_results := some 1 }).map Prod.fst := by
  decide

/-- C3 amended: each type uses one consistent wire name per field in both
directions, so serialize-then-deserialize round-trips for every value of
the types deriving both — but the casing is camelCase only for the search
types; `FindSimilarRequest` and the `get_contents` types use wire names
identical to the snake_case in-memory names. The final conjuncts exhibit
the exact wire keys of a fully-set `find_similar` / `get_contents` request
and show `ContentsResult` decoding from its snake_case keys. -/
theorem c3_wire_name_roundtrip :
    (∀ r : SearchRequest, SearchRequest.fromJson (SearchRequest.toJson r) = .ok r)
  ∧ (∀ r : SearchResponse, SearchResponse.fromJson (SearchResponse.toJson r) = .ok r)
  ∧ (∀ r : FindSimilarRequest, FindSimilarRequest.fromJson (FindSimilarRequest.toJson r) = .ok r)
  ∧ (∀ r : FindSimilarResponse, FindSimilarResponse.fromJson (FindSimilarResponse.toJson r) = .ok r)
  ∧ (∀ (u : String) (nr : U32) (idm edm : List String) (scd ecd spd epd : String)
        (it et : List String) (c : SearchContent),
      FindSimilarRequest.toJsonFields
        { url := u, num_results := some nr, include_domains := some idm,
          exclude_domains := some edm, start_crawl_date := some scd,
          end_crawl_date := some ecd, start_published_date := some spd,
          end_published_date := some epd, include_text := some it,
          exclude_text := some et, contents := some c }
      = [("url", Json.str u), ("num_results", encU32 nr),
         ("include_domains", encStrList idm), ("exclude_domains", encStrList edm),
         ("start_crawl_date", Json.str scd), ("end_crawl_date", Json.str ecd),
         ("start_published_date", Json.str spd), ("end_published_date", Json.str epd),
         ("include_text", encStrList it), ("exclude_text", encStrList et),
         ("contents", SearchContent.toJson c)])
  ∧ (∀ (ids : List String) (t : ContentsTextRequest) (h : ContentsHighlightsRequest)
        (s : ContentsSummaryRequest),
      ContentsRequest.toJsonFields
        { ids := ids, text := some t, highlights := some h, summary := some s }
      = [("ids", encStrList ids), ("text", ContentsTextRequest.toJson t),
         ("highlights", ContentsHighlightsRequest.toJson h),
         ("summary", ContentsSummaryRequest.toJson s)])
  ∧ (∀ (mc : U32) (ih : Bool),
      ContentsTextRequest.toJsonFields { max_characters := some mc, include_html_tags := some ih }
      = [("max_characters", encU32 mc), ("include_html_tags", Json.bool ih)])
  ∧ (∀ (ns hp : U32) (q : String),
      ContentsHighlightsRequest.toJsonFields
        { num_sentences := some ns, highlights_per_url := some hp, query := some q }
      = [("num_sentences", encU32 ns), ("highlights_per_url", encU32 hp),
         ("query", Json.str q)])
  ∧ (∀ (id u t tx : String) (hl : List String) (hs : List Rat),
      ContentsResult.fromJson (Json.obj
        [("id", Json.str id), ("url", Json.str u), ("title", Json.str t),
         ("text", Json.str tx), ("highlights", encStrList hl),
         ("highlight_scores", encRatList hs)])
      = .ok { id := id, url := u, title := t, text := some tx,
              highlights := some hl, highlight_scores := some hs }) := by
  refine ⟨searchRequest_roundtrip, searchResponse_roundtrip,
    findSimilarRequest_roundtrip, findSimilarResponse_roundtrip,
    fun _ _ _ _ _ _ _ _ _ _ _ => rfl, fun _ _ _ _ => rfl, fun _ _ => rfl,
    fun _ _ _ => rfl, ?_⟩
  intro id u t tx hl hs
  simp +decide [ContentsResult.fromJson, lookupKey_cons_self, lookupKey_cons_ne,
    getReq, decStr, getOptVal_some_str, getOptVal_some_strList, getOptVal_some_ratList,
    exBind]
